import Mathlib

/-!
Shallow embedding of `src/data_collector.py` (capacitor MPN decoder).

Python `Decimal` values are modelled as exact rationals (`ℚ`).  All the
decimal arithmetic performed by the program (integer construction, division
by powers of ten, powers of ten with integral exponents, subtraction) is
exact at the default `decimal` context precision for the magnitudes that
occur, so the rational model is value-faithful.  `Decimal(x)` applied to a
Python *float* literal converts the IEEE-754 double to its exact rational
value; the two inexact float literals that occur in the source (`0.54`,
`6.3`) are embedded below as the exact values of their nearest doubles.

Python exceptions (`KeyError`, `ValueError`, `InvalidOperation`,
`NotImplementedError`) are modelled with `Except String`; dictionaries are
association lists with Python's insertion/overwrite semantics.
-/

set_option maxRecDepth 4096

/-- Python dict lookup: first (unique) binding of the key. -/
def dlookup {α : Type} (d : List (String × α)) (k : String) : Option α :=
  (d.find? (fun p => p.1 == k)).map (fun p => p.2)

/-- Python dict assignment `d[k] = v`: overwrite in place, else append. -/
def dinsert {α : Type} (d : List (String × α)) (k : String) (v : α) :
    List (String × α) :=
  if d.any (fun p => p.1 == k) then
    d.map (fun p => if p.1 == k then (k, v) else p)
  else
    d ++ [(k, v)]

/-- Dict lookup as the raising operation `d[k]` (`KeyError` on a miss). -/
def elookup {α : Type} (d : List (String × α)) (k : String) :
    Except String α :=
  match dlookup d k with
  | some v => Except.ok v
  | none => Except.error ("KeyError: " ++ k)

/-- Char-keyed dict lookup (for `code[0]`-style 1-character keys). -/
def clookup {α : Type} (d : List (Char × α)) (k : Char) : Option α :=
  (d.find? (fun p => p.1 == k)).map (fun p => p.2)

def eclookup {α : Type} (d : List (Char × α)) (k : Char) : Except String α :=
  match clookup d k with
  | some v => Except.ok v
  | none => Except.error ("KeyError: " ++ String.mk [k])

/-- The metric → inch size-code table (`size_m_to_i`), in source order. -/
def size_m_to_i : List (String × String) := [
  ("0402", "01005"),
  ("0404", "015015"),
  ("0603", "0201"),
  ("0505", "0202"),
  ("0805", "0302"),
  ("0808", "0303"),
  ("1310", "0504"),
  ("1005", "0402"),
  ("1608", "0603"),
  ("2012", "0805"),
  ("2520", "1008"),
  ("2828", "1111"),
  ("3216", "1206"),
  ("3225", "1210"),
  ("3625", "1410"),
  ("3838", "1515"),
  ("4516", "1806"),
  ("4520", "1808"),
  ("4532", "1812"),
  ("4564", "1825"),
  ("5025", "2010"),
  ("5050", "2020"),
  ("5750", "2220"),
  ("5764", "2225"),
  ("6432", "2512"),
  ("6450", "2520"),
  ("7450", "2920"),
  ("7563", "3025"),
  ("8484", "3333"),
  ("9210", "4040"),
  ("100100", "4040"),
  ("140127", "5550"),
  ("203153", "8060")]

/-- The inch → metric table, built exactly as the source builds it:
`for key in size_m_to_i: size_i_to_m[size_m_to_i[key]] = key`
(a later metric code silently overwrites an earlier one on a collision). -/
def size_i_to_m : List (String × String) :=
  size_m_to_i.foldl (fun d p => dinsert d p.2 p.1) []

/-- The exact value of the IEEE-754 double nearest `0.54`; this is what
`Decimal(0.54)` constructs (`0.54000000000000003552713678800500929…`). -/
def dec054 : ℚ := 4863887597560136 / 2 ^ 53

/-- The exact value of the IEEE-754 double nearest `6.3`; this is what
`Decimal(6.3)` constructs (`6.29999999999999982236431605997495…`). -/
def dec6_3 : ℚ := 7093169413108531 / 2 ^ 50

/-- Temperature characteristic record (`class TempChar`). -/
structure TempChar where
  code : String
  ceramic_class : String
  temp : ℚ × ℚ
  tol : ℚ × ℚ
deriving DecidableEq

def min_temps : List (Char × ℚ) := [
  ('X', -55),
  ('Y', -30),
  ('Z', 10)]

def max_temps : List (Char × ℚ) := [
  ('4', 65),
  ('5', 85),
  ('6', 105),
  ('7', 125),
  ('8', 150),
  ('9', 200)]

def class2_tols : List (Char × (ℚ × ℚ)) := [
  ('P', (-10, 10)),
  ('R', (-15, 15)),
  ('S', (-22, 22)),
  ('T', (-33, 22)),
  ('U', (-56, 22)),
  ('V', (-82, 22))]

/-- `TempChar.__init__`.  Class-1 codes get the fixed profile (note that the
source writes `Decimal(-0.54)` / `Decimal(0.54)` with *float* literals, so
the stored bounds are the doubles nearest ±0.54, not exactly ±27/50).
Class-2 codes are decomposed character by character; a character outside its
table raises `KeyError` (string indexing out of range raises too). -/
def TempChar.init (code : String) : Except String TempChar :=
  if code = "C0G" ∨ code = "NP0" then
    Except.ok { code := code, ceramic_class := "1",
                temp := (-55, 125), tol := (-dec054, dec054) }
  else do
    let c0 ← match code.toList.get? 0 with
      | some c => Except.ok c
      | none => Except.error "IndexError"
    let min_temp ← eclookup min_temps c0
    let c1 ← match code.toList.get? 1 with
      | some c => Except.ok c
      | none => Except.error "IndexError"
    let max_temp ← eclookup max_temps c1
    let c2 ← match code.toList.get? 2 with
      | some c => Except.ok c
      | none => Except.error "IndexError"
    let tol ← eclookup class2_tols c2
    Except.ok { code := code, ceramic_class := "2",
                temp := (min_temp, max_temp), tol := tol }

/-- Decoded capacitor record (`class Capacitor`).  Attributes the Python
code only sets on some paths are `Option`-valued. -/
structure Capacitor where
  m : String
  mpn : String
  series : String
  size : String
  capVal : ℚ
  tol : ℚ × ℚ
  voltage : ℚ
  temp : TempChar
  thickness : Option ℚ := none
  type : Option String := none
  flexterm : Option String := none
  design : Option String := none
  term : Option String := none
  pack : Option String := none
deriving DecidableEq

/-- `Capacitor.__eq__` compares raw MPN strings only. -/
def Capacitor.eqv (a b : Capacitor) : Bool := a.mpn == b.mpn

/-- Model of `Decimal(s)` for a captured field string.  The regex slots that
are ever converted feed only strings of decimal digits (accepted, value =
the denoted integer) or strings containing the letter `R` (rejected:
`decimal.InvalidOperation`); on that grammar `Decimal` accepts exactly the
all-digit strings. -/
def decimalNat (s : String) : Option ℕ :=
  if s.toList ≠ [] ∧ s.toList.all Char.isDigit then
    some (s.toList.foldl (fun n c => 10 * n + (c.toNat - 48)) 0)
  else
    none

/-- `Decimal(s)` as a raising operation. -/
def edecimal (s : String) : Except String ℕ :=
  match decimalNat s with
  | some n => Except.ok n
  | none => Except.error ("InvalidOperation: " ++ s)

/-- A captured match of the TDK pattern: twelve groups. -/
structure TdkMatch where
  g0 : String
  g1 : String
  g2 : String
  g3 : String
  g4 : String
  g5 : String
  g6 : String
  g7 : String
  g8 : String
  g9 : String
  g10 : String
  g11 : String
deriving DecidableEq

/-- `reduce(lambda x, y: x + y, match)`: the raw matched MPN text. -/
def TdkMatch.mpn (m : TdkMatch) : String :=
  m.g0 ++ m.g1 ++ m.g2 ++ m.g3 ++ m.g4 ++ m.g5 ++ m.g6 ++ m.g7 ++ m.g8 ++
    m.g9 ++ m.g10 ++ m.g11

/-- The slot alphabets of `TdkParser.regex`, as constraints on the captured
groups of any match. -/
def TdkMatch.valid (m : TdkMatch) : Prop :=
  m.g0 = "CGA" ∧
  m.g1 ∈ ["2", "3", "4", "5", "6", "7", "8", "9", "D"] ∧
  m.g2 ∈ ["B", "C", "E", "F", "H", "J", "K", "L", "M", "N", "P"] ∧
  m.g3 ∈ ["1", "2", "3", "4"] ∧
  m.g4 ∈ ["C0G", "X7R", "X7S", "X7T", "X8R"] ∧
  m.g5 ∈ ["0J", "1A", "1C", "1E", "1V", "1H", "2A", "2E", "2W", "2J",
          "3A", "3D", "3F"] ∧
  m.g6.length = 2 ∧ m.g6.toList.all Char.isDigit = true ∧
  m.g7.length = 1 ∧ m.g7.toList.all Char.isDigit = true ∧
  m.g8 ∈ ["J", "K", "M"] ∧
  m.g9.length = 3 ∧ m.g9.toList.all Char.isDigit = true ∧
  m.g10 ∈ ["A", "B", "K", "L"] ∧
  m.g11 = "E"

instance (m : TdkMatch) : Decidable m.valid := by
  unfold TdkMatch.valid; infer_instance

/-- `TdkParser`'s size dict, whose values are `size_i_to_m` lookups made at
class-body evaluation time; every key is present, so the `getD ""` defaults
never fire (e.g. the first value is `"1005"`). -/
def tdkSizes : List (String × String) := [
  ("2", (dlookup size_i_to_m "0402").getD ""),
  ("3", (dlookup size_i_to_m "0603").getD ""),
  ("4", (dlookup size_i_to_m "0805").getD ""),
  ("5", (dlookup size_i_to_m "1206").getD ""),
  ("6", (dlookup size_i_to_m "1210").getD ""),
  ("7", (dlookup size_i_to_m "1808").getD ""),
  ("8", (dlookup size_i_to_m "1812").getD ""),
  ("9", (dlookup size_i_to_m "2220").getD ""),
  ("D", (dlookup size_i_to_m "3025").getD "")]

def tdkThicknesses : List (String × ℚ) := [
  ("B", 50 / 100),
  ("C", 60 / 100),
  ("E", 80 / 100),
  ("F", 85 / 100),
  ("H", 115 / 100),
  ("J", 125 / 100),
  ("K", 130 / 100),
  ("L", 160 / 100),
  ("M", 200 / 100),
  ("N", 230 / 100),
  ("P", 250 / 100)]

/-- TDK rated-voltage dict; all float literals except `6.3` are exactly
representable doubles. -/
def tdkVoltages : List (String × ℚ) := [
  ("0J", dec6_3),
  ("1A", 10),
  ("1C", 16),
  ("1E", 25),
  ("1V", 35),
  ("1H", 50),
  ("2A", 100),
  ("2E", 250),
  ("2W", 450),
  ("2J", 630),
  ("3A", 1000),
  ("3D", 2000),
  ("3F", 3000)]

def tdkTols : List (String × (ℚ × ℚ)) := [
  ("J", (-5, 5)),
  ("K", (-10, 10)),
  ("M", (-20, 20))]

/-- The special-reserved-code check: `E` is the only accepted value, any
other value raises `ValueError`. -/
def tdkSpecialCode (g11 : String) : Except String String :=
  if g11 = "E" then Except.ok "Soft termination"
  else Except.error ("Unknown special code \"" ++ g11 ++ "\".")

/-- `TdkParser.parse_match`, with the source's statement order (size,
thickness letter, duplicate thickness digits + cross-check, temperature
characteristic, rated voltage, capacitance exponent then significand,
tolerance, special reserved code). -/
def TdkParser.parse_match (m : TdkMatch) : Except String Capacitor := do
  let size ← elookup tdkSizes m.g1
  let thickness ← elookup tdkThicknesses m.g2
  let t2 ← edecimal m.g9
  let thickness_2 : ℚ := (t2 : ℚ) / 100
  if thickness ≠ thickness_2 then
    Except.error "Mismatching thicknesses."
  else do
    let temp ← TempChar.init m.g4
    let voltage ← elookup tdkVoltages m.g5
    let expDigit ← edecimal m.g7
    let sig ← edecimal m.g6
    let capVal : ℚ := (sig : ℚ) * (10 : ℚ) ^ ((expDigit : ℤ) - 12)
    let tol ← elookup tdkTols m.g8
    let flexterm ← tdkSpecialCode m.g11
    Except.ok { m := "TDK", mpn := m.mpn, series := m.g0, size := size,
                thickness := some thickness, temp := temp,
                voltage := voltage, capVal := capVal, tol := tol,
                flexterm := some flexterm }

/-- A captured match of the Samsung pattern: twelve groups. -/
structure SamsungMatch where
  g0 : String
  g1 : String
  g2 : String
  g3 : String
  g4 : String
  g5 : String
  g6 : String
  g7 : String
  g8 : String
  g9 : String
  g10 : String
  g11 : String
deriving DecidableEq

def SamsungMatch.mpn (m : SamsungMatch) : String :=
  m.g0 ++ m.g1 ++ m.g2 ++ m.g3 ++ m.g4 ++ m.g5 ++ m.g6 ++ m.g7 ++ m.g8 ++
    m.g9 ++ m.g10 ++ m.g11

/-- The slot alphabets of `SamsungParser.regex`. -/
def SamsungMatch.valid (m : SamsungMatch) : Prop :=
  m.g0 = "CL" ∧
  m.g1 ∈ ["03", "05", "10", "21", "31", "32", "43", "55"] ∧
  m.g2 ∈ ["A", "B", "C", "F", "L", "P", "R", "S", "T", "U", "X", "Y"] ∧
  (∃ c1 c2, m.g3 = String.mk [c1, c2] ∧ c1.isDigit = true ∧
    (c2.isDigit = true ∨ c2 = 'R')) ∧
  m.g4 ∈ ["0", "1", "2", "3", "4", "5", "6", "7", "8", "9"] ∧
  m.g5 ∈ ["A", "B", "C", "D", "F", "G", "J", "K", "M", "Z"] ∧
  m.g6 ∈ ["A", "B", "C", "D", "E", "G", "H", "I", "J", "K", "L", "O",
          "P", "Q", "R"] ∧
  m.g7 ∈ ["3", "5", "6", "8", "A", "C", "F", "H", "I", "J", "L", "Q",
          "V", "Y", "U"] ∧
  m.g8 ∈ ["A", "N", "G", "Z", "S", "Y"] ∧
  m.g9 ∈ ["A", "B", "C", "F", "L", "N", "P", "W", "4"] ∧
  m.g10 ∈ ["N", "6", "J", "W"] ∧
  m.g11 ∈ ["B", "C", "D", "E", "F", "L", "O", "P", "S", "G"]

def samsungSizes : List (String × String) := [
  ("03", (dlookup size_i_to_m "0201").getD ""),
  ("05", (dlookup size_i_to_m "0402").getD ""),
  ("10", (dlookup size_i_to_m "0603").getD ""),
  ("21", (dlookup size_i_to_m "0805").getD ""),
  ("31", (dlookup size_i_to_m "1206").getD ""),
  ("32", (dlookup size_i_to_m "1210").getD ""),
  ("43", (dlookup size_i_to_m "1812").getD ""),
  ("55", (dlookup size_i_to_m "2220").getD "")]

def samsungCharacteristics : List (String × String) := [
  ("C", "C0G"),
  ("P", "P2H"),
  ("R", "R2H"),
  ("S", "S2H"),
  ("T", "T2H"),
  ("U", "U2J"),
  ("L", "S2L"),
  ("A", "X5R"),
  ("B", "X7R"),
  ("Y", "X7S"),
  ("X", "X6S"),
  ("F", "Y5V")]

def samsungTols : List (String × (ℚ × ℚ)) := [
  ("F", (-1, 1)),
  ("G", (-2, 2)),
  ("J", (-5, 5)),
  ("K", (-10, 10)),
  ("M", (-20, 20)),
  ("Z", (-20, 80))]

/-- Samsung rated-voltage dict; `Decimal(63)/10` is the exact 63/10, and the
float literals are all exactly representable doubles. -/
def samsungVoltages : List (String × ℚ) := [
  ("R", 4),
  ("Q", 63 / 10),
  ("P", 10),
  ("O", 16),
  ("A", 25),
  ("L", 35),
  ("B", 50),
  ("C", 100),
  ("D", 200),
  ("E", 250),
  ("G", 500),
  ("H", 630),
  ("I", 1000),
  ("J", 2000),
  ("K", 3000)]

def samsungThicknesses : List (String × ℚ) := [
  ("3", 30 / 100),
  ("5", 50 / 100),
  ("6", 60 / 100),
  ("8", 80 / 100),
  ("A", 65 / 100),
  ("C", 85 / 100),
  ("F", 125 / 100),
  ("Q", 125 / 100),
  ("Y", 125 / 100),
  ("H", 160 / 100),
  ("U", 180 / 100),
  ("I", 200 / 100),
  ("J", 250 / 100),
  ("V", 250 / 100),
  ("L", 320 / 100)]

/-- Termination slot: `flexterm` is only set for `Z`, `S` (soft termination)
and `Y` (Cu/Ag epoxy); otherwise the attribute stays unset. -/
def samsungFlexterm (g8 : String) : Option String :=
  if g8 = "Z" ∨ g8 = "S" then some "Soft termination"
  else if g8 = "Y" then some "Cu/Ag-Epoxy"
  else none

/-- `SamsungParser.parse_match`, in source statement order (size,
temperature characteristic, capacitance exponent then significand,
tolerance, rated voltage, thickness, termination). -/
def SamsungParser.parse_match (m : SamsungMatch) : Except String Capacitor := do
  let size ← elookup samsungSizes m.g1
  let tempcode ← elookup samsungCharacteristics m.g2
  let temp ← TempChar.init tempcode
  let expDigit ← edecimal m.g4
  let sig ← edecimal m.g3
  let capVal : ℚ := (sig : ℚ) * (10 : ℚ) ^ ((expDigit : ℤ) - 12)
  let tol ← elookup samsungTols m.g5
  let voltage ← elookup samsungVoltages m.g6
  let thickness ← elookup samsungThicknesses m.g7
  Except.ok { m := "Samsung", mpn := m.mpn, series := m.g0, size := size,
              temp := temp, capVal := capVal, tol := tol,
              voltage := voltage, thickness := some thickness,
              flexterm := samsungFlexterm m.g8 }

/-- A captured match of the Kemet pattern: eleven groups. -/
structure KemetMatch where
  g0 : String
  g1 : String
  g2 : String
  g3 : String
  g4 : String
  g5 : String
  g6 : String
  g7 : String
  g8 : String
  g9 : String
  g10 : String
deriving DecidableEq

def KemetMatch.mpn (m : KemetMatch) : String :=
  m.g0 ++ m.g1 ++ m.g2 ++ m.g3 ++ m.g4 ++ m.g5 ++ m.g6 ++ m.g7 ++ m.g8 ++
    m.g9 ++ m.g10

/-- The alternatives of the Kemet packaging slot, which include the empty
string (a bare `|` closes the alternation in the source pattern). -/
def kemetPackagingAlts : List String :=
  ["TU", "7411", "7210", "TM", "7040", "7013", "7025", "7215", "7081",
   "7082", "7186", "7289", "7800", "7805", "7810", "7867", "9028", "9239",
   "3325", "AUTO", "AUTO7411", "AUTO7210", "AUTO7289", ""]

/-- The slot alphabets of `KemetParser.regex`. -/
def KemetMatch.valid (m : KemetMatch) : Prop :=
  m.g0 = "C" ∧
  m.g1.length = 4 ∧ m.g1.toList.all Char.isDigit = true ∧
  m.g2 ∈ ["C", "X", "F", "J", "S", "Y", "T", "V", "W"] ∧
  (∃ c1 c2, m.g3 = String.mk [c1, c2] ∧ c1.isDigit = true ∧
    (c2.isDigit = true ∨ c2 = 'R')) ∧
  m.g4 ∈ ["0", "1", "2", "3", "4", "5", "6", "7", "8", "9"] ∧
  m.g5 ∈ ["B", "C", "D", "F", "G", "J", "K", "M", "Z"] ∧
  m.g6 ∈ ["7", "9", "8", "4", "3", "6", "5", "1", "2", "A", "C", "B",
          "D", "F", "G", "Z", "H"] ∧
  m.g7 ∈ ["G", "H", "J", "N", "P", "R", "U", "V"] ∧
  m.g8 ∈ ["A", "B", "C", "1", "2"] ∧
  m.g9 ∈ ["C", "L"] ∧
  m.g10 ∈ kemetPackagingAlts

/-- The series if/elif chain: display label, optional flexible-termination
note, and (only for the COTS series `T`, conditioned on the failure-rate
slot) an optional design note.  Pure: the final `else` keeps the raw letter,
so no branch raises. -/
def kemetSeries (g2 g8 : String) : String × Option String × Option String :=
  if g2 = "C" then ("Standard", none, none)
  else if g2 = "X" then
    ("Flexible termination", some "Flexible termination", none)
  else if g2 = "F" then ("Open mode", none, none)
  else if g2 = "J" then ("Open mode", some "Flexible termination", none)
  else if g2 = "S" then ("Floating electrode", none, none)
  else if g2 = "Y" then
    ("Floating electrode with flexible termination",
     some "Flexible termination", none)
  else if g2 = "V" then ("ArcShield", none, none)
  else if g2 = "W" then
    ("ArcShield with flexible termination", some "Flexible termination", none)
  else if g2 = "T" then
    ("COTS", none,
     if g8 = "A" then some "MIL-PRF-55681 PDA 8 %"
     else if g8 = "B" then some "MIL-PRF-556851 PDA 8 %, DPA EIA-469"
     else if g8 = "C" then
       some "MIL-PRF-55681 PDA 8 %, DPA EIA-469, MIL-STD-202 103 A"
     else none)
  else (g2, none, none)

/-- The failure-rate / design block: only runs when `design` is already set
(`hasattr(c, "design")`); `A` keeps it, `1`/`2` replace it with a KPS
chip-stack note, anything else leaves it alone. -/
def kemetDesignAdjust (design : Option String) (g8 : String) :
    Option String :=
  match design with
  | none => none
  | some d =>
    if g8 = "A" then some d
    else if g8 = "1" then some "KPS Single chip stack"
    else if g8 = "2" then some "KPS Double chip stack"
    else some d

def kemetTols : List (String × (ℚ × ℚ)) := [
  ("F", (-1, 1)),
  ("G", (-2, 2)),
  ("J", (-5, 5)),
  ("K", (-10, 10)),
  ("M", (-20, 20)),
  ("Z", (-20, 80))]

def kemetVoltages : List (String × ℚ) := [
  ("7", 4),
  ("9", 63 / 10),
  ("8", 10),
  ("4", 16),
  ("3", 25),
  ("6", 35),
  ("5", 50),
  ("1", 100),
  ("2", 200),
  ("A", 250),
  ("C", 500),
  ("B", 630),
  ("D", 1000),
  ("F", 1500),
  ("G", 2000),
  ("Z", 2500),
  ("H", 3000)]

def kemetTemps : List (String × String) := [
  ("G", "C0G"),
  ("H", "X8R"),
  ("J", "U2J"),
  ("N", "X8L"),
  ("P", "X5R"),
  ("R", "X7R"),
  ("U", "Z5U"),
  ("V", "Y5V")]

/-- The packaging dict.  Note it has no `"9239"` entry although the pattern
admits that alternative. -/
def kemetPackagings : List (String × String) := [
  ("", "bulk bag"),
  ("TU", "7\" reel, unmarked"),
  ("7411", "13\" reel, unmarked"),
  ("7210", "13\" reel, unmarked"),
  ("7867", "13\" reel, unmarked"),
  ("TM", "7\" reel, marked"),
  ("7013", "7\" reel, marked"),
  ("7025", "7\" reel, marked"),
  ("7040", "13\" reel, marked"),
  ("7215", "13\" reel, marked"),
  ("7081", "7\" reel, unmarked, 2 mm pitch"),
  ("7082", "13\" reel, unmarked, 2 mm pitch"),
  ("7800", "7\" reel, unmarked"),
  ("7805", "7\" reel, unmarked"),
  ("7810", "13\" reel, unmarked"),
  ("9028", "special bulk casette, unmarked"),
  ("3325", "special bulk casette, marked"),
  ("7186", "7\" reel, unmarked"),
  ("7289", "13\" reel, unmarked"),
  ("AUTO", "7\" reel, plastic, auto grade"),
  ("AUTO7289", "13\" reel, plastic, auto grade"),
  ("AUTO7411", "13\" reel, paper, auto grade"),
  ("AUTO7210", "13\" reel, plastic, auto grade")]

/-- The exponent if/elif/else block: digit `9` is special-cased to −13 and
digit `8` to −14; every other value goes through `Decimal(match[4]) - 12`. -/
def kemetExp (g4 : String) : Except String ℤ :=
  if g4 = "9" then Except.ok (-13 : ℤ)
  else if g4 = "8" then Except.ok (-14 : ℤ)
  else do
    let d ← edecimal g4
    Except.ok ((d : ℤ) - 12)

/-- `KemetParser.parse_match`, in source statement order (size via the
global inch → metric table, series chain, capacitance with the special-cased
exponent digits `9` and `8`, tolerance, rated voltage, temperature
characteristic, failure-rate adjustment, termination, packaging). -/
def KemetParser.parse_match (m : KemetMatch) : Except String Capacitor := do
  let size ← elookup size_i_to_m m.g1
  let sd := kemetSeries m.g2 m.g8
  let e ← kemetExp m.g4
  let sig ← edecimal m.g3
  let capVal : ℚ := (sig : ℚ) * (10 : ℚ) ^ (e : ℤ)
  let tol ← elookup kemetTols m.g5
  let voltage ← elookup kemetVoltages m.g6
  let tempcode ← elookup kemetTemps m.g7
  let temp ← TempChar.init tempcode
  let term ← elookup [("C", "Sn 100 %"), ("L", "SnPb (Pb > 5 %)")] m.g9
  let pack ← elookup kemetPackagings m.g10
  Except.ok { m := "Kemet", mpn := m.mpn, type := some m.g0, size := size,
              series := sd.1, flexterm := sd.2.1,
              design := kemetDesignAdjust sd.2.2 m.g8,
              capVal := capVal, tol := tol, voltage := voltage,
              temp := temp, term := some term, pack := some pack }

/-- The accumulation loop of `DataSource.parse_data`: translate each match
in order, appending the record only if no record with an equal raw MPN is
already in `items`.  A raised translation error propagates out of the loop
(there is no `try`/`except` in the source). -/
def parse_data_loop {μ : Type} (parse : μ → Except String Capacitor) :
    List μ → List Capacitor → Except String (List Capacitor)
  | [], items => Except.ok items
  | mt :: ms, items => do
      let item ← parse mt
      if items.any (fun x => item.eqv x) then
        parse_data_loop parse ms items
      else
        parse_data_loop parse ms (items ++ [item])

/-- `DataSource.parse_data` applied to the matches found in one source. -/
def parse_data {μ : Type} (parse : μ → Except String Capacitor)
    (ms : List μ) : Except String (List Capacitor) :=
  parse_data_loop parse ms []

/-- The main loop: `for source in data_sources: capacitors += source.parse_data()`.
Each source contributes its (per-source deduplicated) record list, or an
uncaught exception that kills the run; results are concatenated. -/
def runPipeline (sources : List (Except String (List Capacitor))) :
    Except String (List Capacitor) :=
  sources.foldlM (fun acc r => r.map (fun items => acc ++ items)) []

/-- Attempt to match the fixed-width (20-character) TDK pattern against a
prefix, slot by slot, capturing the twelve groups. -/
def tdkTryPrefix (l : List Char) : Option TdkMatch :=
  match l with
  | [c0, c1, c2, c3, c4, c5, c6, c7, c8, c9, c10, c11, c12, c13, c14,
     c15, c16, c17, c18, c19] =>
    if c0 = 'C' ∧ c1 = 'G' ∧ c2 = 'A' ∧
       c3 ∈ ['2', '3', '4', '5', '6', '7', '8', '9', 'D'] ∧
       c4 ∈ ['B', 'C', 'E', 'F', 'H', 'J', 'K', 'L', 'M', 'N', 'P'] ∧
       c5 ∈ ['1', '2', '3', '4'] ∧
       String.mk [c6, c7, c8] ∈ ["C0G", "X7R", "X7S", "X7T", "X8R"] ∧
       String.mk [c9, c10] ∈ ["0J", "1A", "1C", "1E", "1V", "1H", "2A",
                              "2E", "2W", "2J", "3A", "3D", "3F"] ∧
       c11.isDigit = true ∧ c12.isDigit = true ∧ c13.isDigit = true ∧
       c14 ∈ ['J', 'K', 'M'] ∧
       c15.isDigit = true ∧ c16.isDigit = true ∧ c17.isDigit = true ∧
       c18 ∈ ['A', 'B', 'K', 'L'] ∧ c19 = 'E' then
      some { g0 := String.mk [c0, c1, c2], g1 := String.mk [c3],
             g2 := String.mk [c4], g3 := String.mk [c5],
             g4 := String.mk [c6, c7, c8], g5 := String.mk [c9, c10],
             g6 := String.mk [c11, c12], g7 := String.mk [c13],
             g8 := String.mk [c14], g9 := String.mk [c15, c16, c17],
             g10 := String.mk [c18], g11 := String.mk [c19] }
    else none
  | _ => none

/-- Scanning loop for `findall`, structurally recursive on a fuel that
starts at the text length; every step consumes at least one character and
one unit of fuel, so the fuel never runs out. -/
def tdkFindAllAux : ℕ → List Char → List TdkMatch
  | 0, _ => []
  | _ + 1, [] => []
  | fuel + 1, c :: cs =>
    match tdkTryPrefix ((c :: cs).take 20) with
    | some mt => mt :: tdkFindAllAux fuel ((c :: cs).drop 20)
    | none => tdkFindAllAux fuel cs

/-- `TdkParser.regex.findall(s)`: scan left to right, emitting each
leftmost match and resuming after it (non-overlapping), else advancing one
character.  Faithful to `re.findall` because the TDK pattern is fixed-width
with no anchors. -/
def tdkFindAll (l : List Char) : List TdkMatch := tdkFindAllAux l.length l

/-! Helper lemmas about `Except` binds. -/

theorem except_bind_ok {ε α β : Type} {x : Except ε α} {f : α → Except ε β}
    {b : β} :
    x >>= f = Except.ok b ↔ ∃ a, x = Except.ok a ∧ f a = Except.ok b := by
  cases x <;> simp [Bind.bind, Except.bind]

theorem except_bind_ok_l {ε α β : Type} (a : α) (f : α → Except ε β) :
    (Except.ok a : Except ε α) >>= f = f a := rfl

theorem except_bind_err_l {ε α β : Type} (e : ε) (f : α → Except ε β) :
    (Except.error e : Except ε α) >>= f = Except.error e := rfl

/-- The single TDK match captured from the spec's end-to-end example text
`CGADN3X7R1E476M230LE`. -/
def tdkExample : TdkMatch :=
  { g0 := "CGA", g1 := "D", g2 := "N", g3 := "3", g4 := "X7R", g5 := "1E",
    g6 := "47", g7 := "6", g8 := "M", g9 := "230", g10 := "L", g11 := "E" }

/-- The record `TdkParser.parse_match` produces for `tdkExample`. -/
def tdkExampleCap : Capacitor :=
  { m := "TDK", mpn := "CGADN3X7R1E476M230LE", series := "CGA",
    size := "7563", thickness := some (23 / 10),
    temp := { code := "X7R", ceramic_class := "2", temp := (-55, 125),
              tol := (-15, 15) },
    voltage := 25, capVal := 47 / 1000000, tol := (-20, 20),
    flexterm := some "Soft termination" }

/-- A TDK match identical to `tdkExample` except that its two thickness
slots disagree (`N` ↦ 2.30 mm vs `231` ↦ 2.31 mm). -/
def tdkBadThickness : TdkMatch :=
  { g0 := "CGA", g1 := "D", g2 := "N", g3 := "3", g4 := "X7R", g5 := "1E",
    g6 := "47", g7 := "6", g8 := "M", g9 := "231", g10 := "L", g11 := "E" }

/-- Claim C1, amended.  Building `size_i_to_m` does not fail fast on an
inch-code collision: the loop silently overwrites, so the later metric code
wins.  The metric → inch → metric round trip therefore holds for every
metric code in the table except `"9210"`, whose inch code `"4040"` is also
the inch code of the later entry `"100100"`. -/
theorem c1_size_round_trip :
    ∀ p ∈ size_m_to_i, p.1 ≠ "9210" →
      dlookup size_m_to_i p.1 = some p.2 ∧
      dlookup size_i_to_m p.2 = some p.1 := by
  decide

/-- Claim C1, counterexample to the claim as stated: the metric codes
`"9210"` and `"100100"` both map to inch code `"4040"`, yet the inverse
table was built anyway (no fail-fast), and the round trip at `"9210"`
returns `"100100"`. -/
theorem c1_counterexample :
    dlookup size_m_to_i "9210" = some "4040" ∧
    dlookup size_m_to_i "100100" = some "4040" ∧
    dlookup size_i_to_m "4040" = some "100100" ∧
    ("100100" : String) ≠ "9210" := by
  decide

/-- Witness for `c1_size_round_trip` at the table entry `("0402","01005")`. -/
theorem c1_size_round_trip_witness :
    dlookup size_m_to_i "0402" = some "01005" ∧
    dlookup size_i_to_m "01005" = some "0402" :=
  c1_size_round_trip ("0402", "01005") (by decide) (by decide)

/-- Claim C5: the code is wrong.  `TempChar("C0G")` / `TempChar("NP0")` do
yield class `"1"` and range `[-55, 125]` °C, but the drift bounds are built
with `Decimal(-0.54)` / `Decimal(0.54)` applied to binary *float* literals,
so the stored bounds are ±(the double nearest 0.54), which differs from the
exact decimal ±0.54 the code's own comment (`= 0.54 %`) and the claim
require. -/
theorem c5_class1_profile_bug :
    TempChar.init "C0G" =
      Except.ok { code := "C0G", ceramic_class := "1", temp := (-55, 125),
                  tol := (-dec054, dec054) } ∧
    TempChar.init "NP0" =
      Except.ok { code := "NP0", ceramic_class := "1", temp := (-55, 125),
                  tol := (-dec054, dec054) } ∧
    dec054 ≠ (0.54 : ℚ) := by
  refine ⟨rfl, rfl, ?_⟩
  with_unfolding_all decide

/-- Claim C6, amended.  Decoding `CGADN3X7R1E476M230LE` with the TDK
decoder yields exactly one record whose size code is `"7563"` — the
*metric* code the global table pairs with inch code `"3025"` (not, as the
claim stated, the inch code for metric `"3625"`) — with thickness 2.30 mm
decoded consistently from both thickness slots, rated voltage 25 V,
capacitance 47 × 10^(6−12) F, tolerance [-20, 20] %, and the Class-2
profile of `"X7R"`. -/
theorem c6_end_to_end :
    tdkFindAll "CGADN3X7R1E476M230LE".toList = [tdkExample] ∧
    parse_data TdkParser.parse_match
      (tdkFindAll "CGADN3X7R1E476M230LE".toList) =
      Except.ok [tdkExampleCap] ∧
    tdkExampleCap.size = "7563" ∧
    dlookup size_i_to_m "3025" = some "7563" ∧
    dlookup tdkThicknesses tdkExample.g2 = some (230 / 100) ∧
    decimalNat tdkExample.g9 = some 230 ∧
    tdkExampleCap.thickness = some ((230 : ℚ) / 100) ∧
    tdkExampleCap.voltage = 25 ∧
    tdkExampleCap.capVal = 47 * (10 : ℚ) ^ ((6 : ℤ) - 12) ∧
    tdkExampleCap.tol = (-20, 20) ∧
    TempChar.init "X7R" = Except.ok tdkExampleCap.temp := by
  refine ⟨?_, ?_, rfl, ?_, ?_, ?_, ?_, rfl, ?_, rfl, ?_⟩ <;>
    with_unfolding_all rfl

/-- Claim C6, counterexample to the claim as stated: the decoded record's
size code is `"7563"`, while the inch-system code for metric `"3625"` is
`"1410"`. -/
theorem c6_counterexample :
    parse_data TdkParser.parse_match
      (tdkFindAll "CGADN3X7R1E476M230LE".toList) =
      Except.ok [tdkExampleCap] ∧
    dlookup size_m_to_i "3625" = some "1410" ∧
    tdkExampleCap.size ≠ "1410" := by
  refine ⟨?_, ?_, ?_⟩
  · with_unfolding_all rfl
  · rfl
  · decide

/-- Claim C3, amended.  A decode failure is *not* local to one candidate:
`parse_data` has no exception handling, so the first failing match makes
the whole source raise, and an uncaught source error propagates through
the main accumulation loop past every remaining source. -/
theorem c3_error_aborts_run :
    (∀ {μ : Type} (parse : μ → Except String Capacitor) (mt : μ)
        (ms : List μ) (e : String), parse mt = Except.error e →
        parse_data parse (mt :: ms) = Except.error e) ∧
    (∀ (e : String) (pre rest : List (Except String (List Capacitor))),
        (∀ r ∈ pre, ∃ l, r = Except.ok l) →
        runPipeline (pre ++ Except.error e :: rest) = Except.error e) := by
  constructor
  · intro μ parse mt ms e h
    simp [parse_data, parse_data_loop, h, except_bind_err_l]
  · intro e pre rest hpre
    have key : ∀ (p : List (Except String (List Capacitor)))
        (acc : List Capacitor), (∀ r ∈ p, ∃ l, r = Except.ok l) →
        List.foldlM (fun acc r => r.map (fun items => acc ++ items)) acc
          (p ++ Except.error e :: rest) = Except.error e := by
      intro p
      induction p with
      | nil =>
        intro acc _
        simp [List.foldlM_cons, Except.map, except_bind_err_l]
      | cons r p ih =>
        intro acc hall
        obtain ⟨l, rfl⟩ := hall r (List.mem_cons_self r p)
        simp only [List.cons_append, List.foldlM_cons, Except.map,
                   except_bind_ok_l]
        exact ih (acc ++ l) (fun r hr => hall r (List.mem_cons_of_mem _ hr))
    exact key pre [] hpre

/-- Claim C3, counterexample to the claim as stated: a thickness-mismatch
failure in one TDK candidate makes the whole source raise, so the valid
candidate right after it produces no record, and the error kills the whole
run even though a later source would have decoded fine. -/
theorem c3_counterexample :
    parse_data TdkParser.parse_match [tdkExample] =
      Except.ok [tdkExampleCap] ∧
    parse_data TdkParser.parse_match [tdkBadThickness, tdkExample] =
      Except.error "Mismatching thicknesses." ∧
    runPipeline
      [parse_data TdkParser.parse_match [tdkBadThickness, tdkExample],
       parse_data TdkParser.parse_match [tdkExample]] =
      Except.error "Mismatching thicknesses." := by
  refine ⟨?_, ?_, ?_⟩ <;> with_unfolding_all rfl

/-- Witness for `c3_error_aborts_run` on the concrete mismatching match. -/
theorem c3_error_aborts_run_witness :
    parse_data TdkParser.parse_match [tdkBadThickness, tdkExample] =
      Except.error "Mismatching thicknesses." ∧
    runPipeline [Except.error "Mismatching thicknesses."] =
      Except.error "Mismatching thicknesses." :=
  ⟨c3_error_aborts_run.1 TdkParser.parse_match tdkBadThickness [tdkExample]
      "Mismatching thicknesses." (by with_unfolding_all rfl),
   c3_error_aborts_run.2 "Mismatching thicknesses." [] []
      (fun r hr => absurd hr (List.not_mem_nil r))⟩

/-- Claim C7, confirmed.  For every TDK pattern match whose two thickness
slots decode to different values, translation raises the hard decode error
`Mismatching thicknesses.` and no record is produced. -/
theorem c7_thickness_mismatch :
    ∀ (m : TdkMatch), m.valid →
      ∀ (t : ℚ), dlookup tdkThicknesses m.g2 = some t →
      ∀ (n : ℕ), decimalNat m.g9 = some n →
      t ≠ (n : ℚ) / 100 →
      TdkParser.parse_match m = Except.error "Mismatching thicknesses." := by
  intro m hv t ht n hn hne
  obtain ⟨h0, h1, hrest⟩ := hv
  have hsize : ∃ sz, dlookup tdkSizes m.g1 = some sz := by
    simp only [List.mem_cons, List.not_mem_nil, or_false] at h1
    rcases h1 with h | h | h | h | h | h | h | h | h <;> rw [h] <;>
      exact ⟨_, rfl⟩
  obtain ⟨sz, hsz⟩ := hsize
  simp [TdkParser.parse_match, elookup, edecimal, hsz, ht, hn, hne,
        except_bind_ok_l]

/-- Witness for `c7_thickness_mismatch` at the concrete match whose letter
slot says 2.30 mm but whose digit slot says 2.31 mm. -/
theorem c7_thickness_mismatch_witness :
    TdkParser.parse_match tdkBadThickness =
      Except.error "Mismatching thicknesses." :=
  c7_thickness_mismatch tdkBadThickness (by decide) (23 / 10)
    (by with_unfolding_all rfl) 231 (by decide)
    (by with_unfolding_all decide)

/-- Claim C8, confirmed.  The Kemet packaging slot's alphabet contains the
empty string as a real alternative, and every successfully translated match
whose packaging slot is empty gets the named default description
`bulk bag`. -/
theorem c8_empty_packaging :
    ("" ∈ kemetPackagingAlts) ∧
    (∀ (m : KemetMatch), m.g10 = "" → ∀ (c : Capacitor),
        KemetParser.parse_match m = Except.ok c →
        c.pack = some "bulk bag") := by
  constructor
  · decide
  · intro m h10 c hc
    simp only [KemetParser.parse_match, except_bind_ok, Except.ok.injEq] at hc
    obtain ⟨sz, hsz, e, he, sig, hsig, tol, htol, volt, hvolt, tcode, htcode,
            temp, htemp, term, hterm, pack, hpack, hc⟩ := hc
    rw [h10] at hpack
    have hbulk : pack = "bulk bag" := by
      have : elookup kemetPackagings "" = Except.ok "bulk bag" := rfl
      rw [this] at hpack
      exact (Except.ok.inj hpack).symm
    subst hc
    simp [hbulk]

/-- If the temperature-characteristic code a Samsung match translates to is
rejected by the classifier, no record can be produced: a successful parse
would require the classifier bind to have succeeded. -/
theorem samsung_no_record_of_tempchar_err (m : SamsungMatch) (code : String)
    (hcode : elookup samsungCharacteristics m.g2 = Except.ok code)
    (herr : ∃ e, TempChar.init code = Except.error e) :
    ∀ c, SamsungParser.parse_match m ≠ Except.ok c := by
  intro c hc
  simp only [SamsungParser.parse_match, except_bind_ok] at hc
  obtain ⟨sz, hsz, code2, hcode2, temp, htemp, _⟩ := hc
  rw [hcode] at hcode2
  cases Except.ok.inj hcode2
  obtain ⟨e, he⟩ := herr
  rw [he] at htemp
  exact Except.noConfusion htemp

/-- Claim C9, confirmed.  Every Samsung match whose temperature slot is one
of the letters `P`, `R`, `S`, `T`, `U`, `L` translates to a code in
`{P2H, R2H, S2H, T2H, U2J, S2L}` whose first character is outside the
Class-2 alphabet `{X, Y, Z}`, so the classifier raises a lookup error and
translation produces no record. -/
theorem c9_samsung_class2_letters :
    ∀ (m : SamsungMatch), m.valid →
      m.g2 ∈ ["P", "R", "S", "T", "U", "L"] →
      ∃ code, dlookup samsungCharacteristics m.g2 = some code ∧
        code ∈ ["P2H", "R2H", "S2H", "T2H", "U2J", "S2L"] ∧
        (∃ e, TempChar.init code = Except.error e) ∧
        (∀ c, SamsungParser.parse_match m ≠ Except.ok c) := by
  intro m _hv h2
  simp only [List.mem_cons, List.not_mem_nil, or_false] at h2
  rcases h2 with h | h | h | h | h | h
  · exact ⟨"P2H", by rw [h]; rfl, by decide, ⟨"KeyError: P", rfl⟩,
      samsung_no_record_of_tempchar_err m "P2H" (by rw [h]; rfl)
        ⟨"KeyError: P", rfl⟩⟩
  · exact ⟨"R2H", by rw [h]; rfl, by decide, ⟨"KeyError: R", rfl⟩,
      samsung_no_record_of_tempchar_err m "R2H" (by rw [h]; rfl)
        ⟨"KeyError: R", rfl⟩⟩
  · exact ⟨"S2H", by rw [h]; rfl, by decide, ⟨"KeyError: S", rfl⟩,
      samsung_no_record_of_tempchar_err m "S2H" (by rw [h]; rfl)
        ⟨"KeyError: S", rfl⟩⟩
  · exact ⟨"T2H", by rw [h]; rfl, by decide, ⟨"KeyError: T", rfl⟩,
      samsung_no_record_of_tempchar_err m "T2H" (by rw [h]; rfl)
        ⟨"KeyError: T", rfl⟩⟩
  · exact ⟨"U2J", by rw [h]; rfl, by decide, ⟨"KeyError: U", rfl⟩,
      samsung_no_record_of_tempchar_err m "U2J" (by rw [h]; rfl)
        ⟨"KeyError: U", rfl⟩⟩
  · exact ⟨"S2L", by rw [h]; rfl, by decide, ⟨"KeyError: S", rfl⟩,
      samsung_no_record_of_tempchar_err m "S2L" (by rw [h]; rfl)
        ⟨"KeyError: S", rfl⟩⟩

/-- The concrete Samsung match `CL31P106KOHZFNE` (temperature letter `P`).
-/
def samsungExampleP : SamsungMatch :=
  { g0 := "CL", g1 := "31", g2 := "P", g3 := "10", g4 := "6", g5 := "K",
    g6 := "O", g7 := "H", g8 := "Z", g9 := "F", g10 := "N", g11 := "E" }

/-- Witness for `c9_samsung_class2_letters` at the concrete match
`CL31P106KOHZFNE` (letter `P`). -/
theorem c9_samsung_class2_letters_witness :
    ∃ code,
      dlookup samsungCharacteristics samsungExampleP.g2 = some code ∧
      code ∈ ["P2H", "R2H", "S2H", "T2H", "U2J", "S2L"] ∧
      (∃ e, TempChar.init code = Except.error e) ∧
      (∀ c, SamsungParser.parse_match samsungExampleP ≠ Except.ok c) :=
  c9_samsung_class2_letters samsungExampleP
    ⟨rfl, by decide, by decide,
      ⟨'1', '0', rfl, by decide, Or.inl (by decide)⟩, by decide, by decide,
      by decide, by decide, by decide, by decide, by decide, by decide⟩
    (by decide)

/-- A successful Samsung translation implies the significand slot was
successfully converted by `Decimal`. -/
theorem samsung_sig_conv_of_ok (m : SamsungMatch) (c : Capacitor)
    (hc : SamsungParser.parse_match m = Except.ok c) :
    ∃ n, edecimal m.g3 = Except.ok n := by
  simp only [SamsungParser.parse_match, except_bind_ok] at hc
  obtain ⟨sz, hsz, code, hcode, temp, htemp, ed, hed, sg, hsg, _⟩ := hc
  exact ⟨sg, hsg⟩

/-- A successful Kemet translation implies the significand slot was
successfully converted by `Decimal`. -/
theorem kemet_sig_conv_of_ok (m : KemetMatch) (c : Capacitor)
    (hc : KemetParser.parse_match m = Except.ok c) :
    ∃ n, edecimal m.g3 = Except.ok n := by
  simp only [KemetParser.parse_match, except_bind_ok] at hc
  obtain ⟨sz, hsz, e1, he1, sg, hsg, _⟩ := hc
  exact ⟨sg, hsg⟩

/-- Claim C10, confirmed.  For every Samsung or Kemet pattern match whose
capacitance-significand slot has `R` as its second character, converting
the slot with `Decimal` fails, so translation raises and produces no
record. -/
theorem c10_r_significand :
    (∀ (m : SamsungMatch), m.valid → m.g3.toList.get? 1 = some 'R' →
        decimalNat m.g3 = none ∧
        ∃ e, SamsungParser.parse_match m = Except.error e) ∧
    (∀ (m : KemetMatch), m.valid → m.g3.toList.get? 1 = some 'R' →
        decimalNat m.g3 = none ∧
        ∃ e, KemetParser.parse_match m = Except.error e) := by
  have hR : Char.isDigit 'R' = false := by decide
  constructor
  · intro m hv hsnd
    obtain ⟨_, _, _, ⟨c1, c2, hg3, hc1, _⟩, _⟩ := hv
    rw [hg3] at hsnd
    have hmk : (String.mk [c1, c2]).toList = [c1, c2] := rfl
    rw [hmk] at hsnd
    simp only [List.get?_cons_succ, List.get?_cons_zero,
               Option.some.injEq] at hsnd
    subst hsnd
    have hnone : decimalNat m.g3 = none := by
      rw [hg3]
      simp [decimalNat, String.toList, hR]
    refine ⟨hnone, ?_⟩
    cases hp : SamsungParser.parse_match m with
    | error e => exact ⟨e, rfl⟩
    | ok c =>
      obtain ⟨n, hn⟩ := samsung_sig_conv_of_ok m c hp
      simp [edecimal, hnone] at hn
  · intro m hv hsnd
    obtain ⟨_, _, _, _, ⟨c1, c2, hg3, hc1, _⟩, _⟩ := hv
    rw [hg3] at hsnd
    have hmk : (String.mk [c1, c2]).toList = [c1, c2] := rfl
    rw [hmk] at hsnd
    simp only [List.get?_cons_succ, List.get?_cons_zero,
               Option.some.injEq] at hsnd
    subst hsnd
    have hnone : decimalNat m.g3 = none := by
      rw [hg3]
      simp [decimalNat, String.toList, hR]
    refine ⟨hnone, ?_⟩
    cases hp : KemetParser.parse_match m with
    | error e => exact ⟨e, rfl⟩
    | ok c =>
      obtain ⟨n, hn⟩ := kemet_sig_conv_of_ok m c hp
      simp [edecimal, hnone] at hn

/-- The concrete Samsung match `CL31B1R6KOHZFNE`-style tuple with `R` in
the significand slot. -/
def samsungExampleR : SamsungMatch :=
  { g0 := "CL", g1 := "31", g2 := "B", g3 := "1R", g4 := "6", g5 := "K",
    g6 := "O", g7 := "H", g8 := "Z", g9 := "F", g10 := "N", g11 := "E" }

/-- The concrete Kemet match `C1206C1R6M3RAC` with `R` in the significand
slot and empty packaging. -/
def kemetExampleR : KemetMatch :=
  { g0 := "C", g1 := "1206", g2 := "C", g3 := "1R", g4 := "6", g5 := "M",
    g6 := "3", g7 := "R", g8 := "A", g9 := "C", g10 := "" }

/-- Witness for `c10_r_significand` on the two concrete matches. -/
theorem c10_r_significand_witness :
    (decimalNat samsungExampleR.g3 = none ∧
      ∃ e, SamsungParser.parse_match samsungExampleR = Except.error e) ∧
    (decimalNat kemetExampleR.g3 = none ∧
      ∃ e, KemetParser.parse_match kemetExampleR = Except.error e) :=
  ⟨c10_r_significand.1 samsungExampleR
      ⟨rfl, by decide, by decide,
        ⟨'1', 'R', rfl, by decide, Or.inr rfl⟩, by decide, by decide,
        by decide, by decide, by decide, by decide, by decide, by decide⟩
      rfl,
   c10_r_significand.2 kemetExampleR
      ⟨rfl, by decide, by decide, by decide,
        ⟨'1', 'R', rfl, by decide, Or.inr rfl⟩, by decide, by decide,
        by decide, by decide, by decide, by decide, by decide⟩
      rfl⟩

/-- Claim C4, confirmed.  Every successfully translated match of any of the
three decoders has capacitance `significand × 10^(exponent digit − 12)`,
except that in the Kemet decoder exponent digit `9` yields exponent −13 and
exponent digit `8` yields exponent −14. -/
theorem c4_capacitance_formula :
    (∀ (m : TdkMatch) (c : Capacitor),
        TdkParser.parse_match m = Except.ok c →
        ∀ s d, decimalNat m.g6 = some s → decimalNat m.g7 = some d →
        c.capVal = (s : ℚ) * (10 : ℚ) ^ ((d : ℤ) - 12)) ∧
    (∀ (m : SamsungMatch) (c : Capacitor),
        SamsungParser.parse_match m = Except.ok c →
        ∀ s d, decimalNat m.g3 = some s → decimalNat m.g4 = some d →
        c.capVal = (s : ℚ) * (10 : ℚ) ^ ((d : ℤ) - 12)) ∧
    (∀ (m : KemetMatch) (c : Capacitor),
        KemetParser.parse_match m = Except.ok c →
        ∀ s, decimalNat m.g3 = some s →
        (m.g4 = "9" → c.capVal = (s : ℚ) * (10 : ℚ) ^ (-13 : ℤ)) ∧
        (m.g4 = "8" → c.capVal = (s : ℚ) * (10 : ℚ) ^ (-14 : ℤ)) ∧
        (m.g4 ≠ "9" → m.g4 ≠ "8" →
          ∀ d, decimalNat m.g4 = some d →
          c.capVal = (s : ℚ) * (10 : ℚ) ^ ((d : ℤ) - 12))) := by
  refine ⟨?_, ?_, ?_⟩
  · intro m c hc s d hs hd
    simp only [TdkParser.parse_match, except_bind_ok] at hc
    obtain ⟨sz, hsz, th, hth, t2, ht2, hc⟩ := hc
    split at hc
    · simp at hc
    · simp only [except_bind_ok, Except.ok.injEq] at hc
      obtain ⟨temp, htemp, volt, hvolt, ed, hed, sg, hsg, tol, htol,
              fx, hfx, hc⟩ := hc
      subst hc
      simp only [edecimal, hs, Except.ok.injEq] at hsg
      simp only [edecimal, hd, Except.ok.injEq] at hed
      subst hsg
      subst hed
      rfl
  · intro m c hc s d hs hd
    simp only [SamsungParser.parse_match, except_bind_ok,
               Except.ok.injEq] at hc
    obtain ⟨sz, hsz, code, hcode, temp, htemp, ed, hed, sg, hsg, tol, htol,
            volt, hvolt, th, hth, hc⟩ := hc
    subst hc
    simp only [edecimal, hs, Except.ok.injEq] at hsg
    simp only [edecimal, hd, Except.ok.injEq] at hed
    subst hsg
    subst hed
    rfl
  · intro m c hc s hs
    simp only [KemetParser.parse_match, except_bind_ok,
               Except.ok.injEq] at hc
    obtain ⟨sz, hsz, e1, he1, sg, hsg, tol, htol, volt, hvolt, code, hcode,
            temp, htemp, term1, hterm, pk, hpk, hc⟩ := hc
    subst hc
    simp only [edecimal, hs, Except.ok.injEq] at hsg
    subst hsg
    refine ⟨?_, ?_, ?_⟩
    · intro h9
      rw [h9] at he1
      simp [kemetExp] at he1
      subst he1
      rfl
    · intro h8
      rw [h8] at he1
      simp [kemetExp] at he1
      subst he1
      rfl
    · intro h9 h8 d hd
      simp only [kemetExp, if_neg h9, if_neg h8, edecimal, hd,
                 except_bind_ok_l, Except.ok.injEq] at he1
      subst he1
      rfl

/-- The concrete Samsung match `CL31B106KOHZFNE` (the source's own example
MPN). -/
def samsungExampleB : SamsungMatch :=
  { g0 := "CL", g1 := "31", g2 := "B", g3 := "10", g4 := "6", g5 := "K",
    g6 := "O", g7 := "H", g8 := "Z", g9 := "F", g10 := "N", g11 := "E" }

/-- The record `SamsungParser.parse_match` produces for `samsungExampleB`.
-/
def samsungExampleCap : Capacitor :=
  { m := "Samsung", mpn := "CL31B106KOHZFNE", series := "CL",
    size := "3216",
    temp := { code := "X7R", ceramic_class := "2", temp := (-55, 125),
              tol := (-15, 15) },
    capVal := 1 / 100000, tol := (-10, 10), voltage := 16,
    thickness := some (8 / 5), flexterm := some "Soft termination" }

/-- The concrete Kemet match `C1206C106M3RAC` (empty packaging slot). -/
def kemetExampleM : KemetMatch :=
  { g0 := "C", g1 := "1206", g2 := "C", g3 := "10", g4 := "6", g5 := "M",
    g6 := "3", g7 := "R", g8 := "A", g9 := "C", g10 := "" }

/-- The record `KemetParser.parse_match` produces for `kemetExampleM`. -/
def kemetExampleCap : Capacitor :=
  { m := "Kemet", mpn := "C1206C106M3RAC", type := some "C",
    size := "3216", series := "Standard",
    capVal := 1 / 100000, tol := (-20, 20), voltage := 25,
    temp := { code := "X7R", ceramic_class := "2", temp := (-55, 125),
              tol := (-15, 15) },
    term := some "Sn 100 %", pack := some "bulk bag" }

/-- Witness for `c4_capacitance_formula` on one concrete successful match
of each decoder. -/
theorem c4_capacitance_formula_witness :
    tdkExampleCap.capVal = (47 : ℚ) * (10 : ℚ) ^ ((6 : ℤ) - 12) ∧
    samsungExampleCap.capVal = (10 : ℚ) * (10 : ℚ) ^ ((6 : ℤ) - 12) ∧
    kemetExampleCap.capVal = (10 : ℚ) * (10 : ℚ) ^ ((6 : ℤ) - 12) :=
  ⟨c4_capacitance_formula.1 tdkExample tdkExampleCap
      (by with_unfolding_all rfl) 47 6 rfl rfl,
   c4_capacitance_formula.2.1 samsungExampleB samsungExampleCap
      (by with_unfolding_all rfl) 10 6 rfl rfl,
   (c4_capacitance_formula.2.2 kemetExampleM kemetExampleCap
      (by with_unfolding_all rfl) 10 rfl).2.2 (by decide) (by decide)
      6 rfl⟩

/-- Records already in the accumulator (by MPN) are still found in a
successful loop result. -/
theorem parse_data_loop_mono {μ : Type}
    (parse : μ → Except String Capacitor) :
    ∀ (ms : List μ) (items res : List Capacitor),
      parse_data_loop parse ms items = Except.ok res →
      ∀ (c : Capacitor), items.any (fun x => c.eqv x) = true →
        res.any (fun x => c.eqv x) = true := by
  intro ms
  induction ms with
  | nil =>
    intro items res h c hmem
    simp only [parse_data_loop, Except.ok.injEq] at h
    subst h
    exact hmem
  | cons mt0 ms ih =>
    intro items res h c hmem
    simp only [parse_data_loop] at h
    cases hp : parse mt0 with
    | error e =>
      rw [hp, except_bind_err_l] at h
      exact Except.noConfusion h
    | ok item =>
      rw [hp, except_bind_ok_l] at h
      by_cases hin : items.any (fun x => item.eqv x) = true
      · rw [if_pos hin] at h
        exact ih items res h c hmem
      · rw [if_neg hin] at h
        refine ih _ res h c ?_
        simp only [List.any_append, hmem, Bool.true_or]
  
/-- Every match processed by a successful loop run parsed successfully,
and a record with its MPN is in the result. -/
theorem parse_data_loop_covers {μ : Type}
    (parse : μ → Except String Capacitor) :
    ∀ (ms : List μ) (items res : List Capacitor),
      parse_data_loop parse ms items = Except.ok res →
      ∀ mt ∈ ms, ∃ c, parse mt = Except.ok c ∧
        res.any (fun x => c.eqv x) = true := by
  intro ms
  induction ms with
  | nil =>
    intro items res _ mt hmt
    exact absurd hmt (List.not_mem_nil mt)
  | cons mt0 ms ih =>
    intro items res h mt hmt
    simp only [parse_data_loop] at h
    cases hp : parse mt0 with
    | error e =>
      rw [hp, except_bind_err_l] at h
      exact Except.noConfusion h
    | ok item =>
      rw [hp, except_bind_ok_l] at h
      rcases List.mem_cons.mp hmt with rfl | hmt'
      · refine ⟨item, hp, ?_⟩
        by_cases hin : items.any (fun x => item.eqv x) = true
        · rw [if_pos hin] at h
          exact parse_data_loop_mono parse ms items res h item hin
        · rw [if_neg hin] at h
          refine parse_data_loop_mono parse ms _ res h item ?_
          simp [List.any_append, Capacitor.eqv]
      · by_cases hin : items.any (fun x => item.eqv x) = true
        · rw [if_pos hin] at h
          exact ih items res h mt hmt'
        · rw [if_neg hin] at h
          exact ih _ res h mt hmt'

/-- If every remaining match parses to a record whose MPN is already in the
accumulator, the loop adds nothing. -/
theorem parse_data_loop_stable {μ : Type}
    (parse : μ → Except String Capacitor) :
    ∀ (ms : List μ) (items : List Capacitor),
      (∀ mt ∈ ms, ∃ c, parse mt = Except.ok c ∧
          items.any (fun x => c.eqv x) = true) →
      parse_data_loop parse ms items = Except.ok items := by
  intro ms
  induction ms with
  | nil => intro items _; rfl
  | cons mt0 ms ih =>
    intro items hall
    obtain ⟨c, hp, hmem⟩ := hall mt0 (List.mem_cons_self mt0 ms)
    simp only [parse_data_loop]
    rw [hp, except_bind_ok_l, if_pos hmem]
    exact ih items (fun mt hmt => hall mt (List.mem_cons_of_mem _ hmt))

/-- Running the loop on an appended match list is running it sequentially.
-/
theorem parse_data_loop_append {μ : Type}
    (parse : μ → Except String Capacitor) :
    ∀ (ms1 ms2 : List μ) (items : List Capacitor),
      parse_data_loop parse (ms1 ++ ms2) items =
        parse_data_loop parse ms1 items >>=
          fun res => parse_data_loop parse ms2 res := by
  intro ms1
  induction ms1 with
  | nil => intro ms2 items; rfl
  | cons mt0 ms1 ih =>
    intro ms2 items
    simp only [List.cons_append, parse_data_loop]
    cases hp : parse mt0 with
    | error e => simp only [except_bind_err_l]
    | ok item =>
      simp only [except_bind_ok_l]
      by_cases hin : items.any (fun x => item.eqv x) = true
      · rw [if_pos hin, if_pos hin]
        exact ih ms2 items
      · rw [if_neg hin, if_neg hin]
        exact ih ms2 _

/-- A successful loop run keeps the result pairwise distinct by MPN,
provided the accumulator was. -/
theorem parse_data_loop_pairwise {μ : Type}
    (parse : μ → Except String Capacitor) :
    ∀ (ms : List μ) (items res : List Capacitor),
      items.Pairwise (fun a b => a.mpn ≠ b.mpn) →
      parse_data_loop parse ms items = Except.ok res →
      res.Pairwise (fun a b => a.mpn ≠ b.mpn) := by
  intro ms
  induction ms with
  | nil =>
    intro items res hpair h
    simp only [parse_data_loop, Except.ok.injEq] at h
    subst h
    exact hpair
  | cons mt0 ms ih =>
    intro items res hpair h
    simp only [parse_data_loop] at h
    cases hp : parse mt0 with
    | error e =>
      rw [hp, except_bind_err_l] at h
      exact Except.noConfusion h
    | ok item =>
      rw [hp, except_bind_ok_l] at h
      by_cases hin : items.any (fun x => item.eqv x) = true
      · rw [if_pos hin] at h
        exact ih items res hpair h
      · rw [if_neg hin] at h
        refine ih _ res ?_ h
        rw [List.pairwise_append]
        refine ⟨hpair, List.pairwise_singleton _ _, ?_⟩
        intro a ha b hb
        rw [List.mem_singleton.mp hb]
        simp only [List.any_eq_true, Capacitor.eqv, beq_iff_eq,
                   not_exists, not_and] at hin
        exact fun hab => hin a ha (hab.symm)

/-- Claim C2, amended.  Deduplication by raw MPN is local to one source,
not global: within one source's run of `parse_data` no two produced records
share a raw MPN, and processing the same match list twice inside one
source yields exactly the records of processing it once; but the main loop
concatenates per-source results without any cross-source check. -/
theorem c2_dedup_per_source :
    (∀ {μ : Type} (parse : μ → Except String Capacitor) (ms : List μ)
        (res : List Capacitor), parse_data parse ms = Except.ok res →
        res.Pairwise (fun a b => a.mpn ≠ b.mpn)) ∧
    (∀ {μ : Type} (parse : μ → Except String Capacitor) (ms : List μ)
        (res : List Capacitor), parse_data parse ms = Except.ok res →
        parse_data parse (ms ++ ms) = Except.ok res) := by
  constructor
  · intro μ parse ms res h
    exact parse_data_loop_pairwise parse ms [] res (List.Pairwise.nil) h
  · intro μ parse ms res h
    unfold parse_data at h ⊢
    rw [parse_data_loop_append, h, except_bind_ok_l]
    exact parse_data_loop_stable parse ms res
      (parse_data_loop_covers parse ms [] res h)

/-- Claim C2, counterexample to the claim as stated: running the pipeline
over the same source text twice produces the example record twice — two
records with equal raw MPNs in the final collection — instead of the
deduplicated single record a global check would give. -/
theorem c2_counterexample :
    runPipeline
      [parse_data TdkParser.parse_match
        (tdkFindAll "CGADN3X7R1E476M230LE".toList),
       parse_data TdkParser.parse_match
        (tdkFindAll "CGADN3X7R1E476M230LE".toList)] =
      Except.ok [tdkExampleCap, tdkExampleCap] ∧
    runPipeline
      [parse_data TdkParser.parse_match
        (tdkFindAll "CGADN3X7R1E476M230LE".toList)] =
      Except.ok [tdkExampleCap] ∧
    ¬ ([tdkExampleCap, tdkExampleCap].Pairwise
        (fun a b => a.mpn ≠ b.mpn)) := by
  refine ⟨by with_unfolding_all rfl, by with_unfolding_all rfl, ?_⟩
  intro hp
  exact (List.pairwise_cons.mp hp).1 tdkExampleCap
    (List.mem_cons_self _ _) rfl

/-- Witness for `c2_dedup_per_source` on the concrete TDK example source.
-/
theorem c2_dedup_per_source_witness :
    ([tdkExampleCap].Pairwise (fun a b => a.mpn ≠ b.mpn)) ∧
    parse_data TdkParser.parse_match ([tdkExample] ++ [tdkExample]) =
      Except.ok [tdkExampleCap] :=
  ⟨c2_dedup_per_source.1 TdkParser.parse_match [tdkExample] [tdkExampleCap]
      (by with_unfolding_all rfl),
   c2_dedup_per_source.2 TdkParser.parse_match [tdkExample] [tdkExampleCap]
      (by with_unfolding_all rfl)⟩

/-- Witness for `c8_empty_packaging` on the concrete Kemet match with an
empty packaging slot. -/
theorem c8_empty_packaging_witness :
    kemetExampleCap.pack = some "bulk bag" :=
  c8_empty_packaging.2 kemetExampleM rfl kemetExampleCap
    (by with_unfolding_all rfl)
